import Mathlib

/-!
Shallow embedding of `pajarori/pwn.py`, a pwntools convenience shim with
three entry points:

* `get_terminal(split, force)` — pick a terminal-emulator command vector
  from a static priority list guarded by availability predicates, with a
  memoization guard on the ambient `context.terminal` cache and a generic
  shell fallback;
* `ELF(path, *args, **kwargs)` — delegate to the library loader, record
  the handle as `context.binary`, return it;
* `start(elf, **kwargs)` — three-way dispatch between debugger attach,
  remote connect (host/port from `sys.argv[1]`/`sys.argv[2]`) and local
  process spawn, driven by the externally parsed `args.GDB` / `args.REMOTE`
  flags.

The ambient state (`context.terminal`, `context.binary`) is passed
explicitly; the externally owned environment (the `TMUX` variable,
`shutil.which` probing of the search path, the parsed flags, `sys.argv`)
is a record of inputs.  Python truthiness of optional strings is made
explicit, and Python-level failures (list index out of range) are an
explicit `Except` error.
-/

/-- Python truthiness of `os.environ.get(...)` / `kwargs.get(...)`:
`None` and the empty string are falsy, every other string truthy. -/
def truthyStr : Option String → Bool
  | none => false
  | some s => !(s == "")

/-- Externally owned inputs read by `get_terminal`: the `TMUX` environment
variable (`none` when unset) and discoverability of an executable on the
search path (`shutil.which(name) is not None`). -/
structure Env where
  tmuxVar : Option String
  which : String → Bool

/-- A loaded binary handle, as produced by the external library's ELF
loader: its filesystem path plus (opaque to this module) parsed metadata. -/
structure Elf where
  path : String
  info : Nat
deriving DecidableEq, Repr

/-- The ambient pwntools `context` state touched by the module: the cached
terminal command (`[]` models an unset/falsy cache) and the current binary. -/
structure Ctx where
  terminal : List String
  binary : Option Elf
deriving DecidableEq, Repr

/-- The static priority list `TERMINALS` from the source: each entry is
`(name, launch command, availability condition)`, with the split flag
already substituted into the first (tmux) entry's command. -/
def TERMINALS (env : Env) (split_flag : String) :
    List (String × List String × Bool) :=
  [ ("tmux", ["tmux", "splitw", split_flag],
      truthyStr env.tmuxVar && env.which "tmux"),
    ("kitty", ["kitty", "-e"], env.which "kitty"),
    ("wezterm", ["wezterm", "start", "--"], env.which "wezterm"),
    ("alacritty", ["alacritty", "-e"], env.which "alacritty"),
    ("konsole", ["konsole", "-e"], env.which "konsole"),
    ("gnome-terminal", ["gnome-terminal", "--"], env.which "gnome-terminal"),
    ("xfce4-terminal", ["xfce4-terminal", "-e"], env.which "xfce4-terminal"),
    ("terminator", ["terminator", "-x"], env.which "terminator"),
    ("xterm", ["xterm", "-e"], env.which "xterm") ]

/-- The `for _, cmd, condition in TERMINALS` loop: return the first command
whose condition holds, else the `["bash", "-lc"]` fallback. -/
def scan_terminals : List (String × List String × Bool) → List String
  | [] => ["bash", "-lc"]
  | (_, cmd, cond) :: rest => if cond then cmd else scan_terminals rest

/-- The recomputation path of `get_terminal` (everything after the cache
guard): choose the split flag, build the priority list, scan it. -/
def compute_terminal (env : Env) (split : String) : List String :=
  let split_flag := if split == "horizontal" then "-h" else "-v"
  scan_terminals (TERMINALS env split_flag)

/-- `get_terminal(split="horizontal", force=False)`: if `context.terminal`
is truthy and `force` is not set, return the cache; otherwise recompute
from the priority list.  Returns the command together with the (never
modified) ambient context. -/
def get_terminal (env : Env) (ctx : Ctx) (split : String) (force : Bool) :
    List String × Ctx :=
  if !ctx.terminal.isEmpty && !force then (ctx.terminal, ctx)
  else (compute_terminal env split, ctx)

/-- The module-initialization line `context.terminal = get_terminal()`:
the single write to the ambient terminal cache, using the default
arguments `split="horizontal"`, `force=False`. -/
def module_init (env : Env) (ctx : Ctx) : Ctx :=
  { ctx with terminal := (get_terminal env ctx "horizontal" false).1 }

/-- `ELF(path, *args, **kwargs)`: delegate to the external loader `load`
(which may fail with a library error `err : ε`), record the handle as
`context.binary`, and return it.  Library failures propagate unchanged. -/
def ELF {ε : Type} (load : String → List String → Except ε Elf)
    (ctx : Ctx) (path : String) (extra : List String) :
    Except ε (Elf × Ctx) :=
  match load path extra with
  | .ok e => .ok (e, { ctx with binary := some e })
  | .error err => .error err

/-- The externally parsed command-line flags consumed by `start`
(truthiness of `args.GDB` and `args.REMOTE`). -/
structure PwnArgs where
  GDB : Bool
  REMOTE : Bool
deriving DecidableEq, Repr

/-- The delegated external-library call selected by `start`, with the
arguments this module passes to it. -/
inductive LaunchCall where
  | gdbDebug (path : String) (gdbscript : String)
  | remoteConn (host : String) (port : String)
  | processSpawn (path : String)
deriving DecidableEq, Repr

/-- A Python-level error raised inside `start` itself (before any
delegation): `sys.argv[i]` out of range. -/
inductive PyError where
  | indexError
deriving DecidableEq, Repr

/-- `start(elf, **kwargs)`: if `args.GDB` and `kwargs.get("gdbscript")` is
truthy, attach the debugger to `elf.path` with that script; else if
`args.REMOTE`, connect to `sys.argv[1]` / `sys.argv[2]` (raising an index
error locally when `argv` is too short); else spawn `elf.path` locally. -/
def start (a : PwnArgs) (argv : List String) (elf : Elf)
    (gdbscript : Option String) : Except PyError LaunchCall :=
  if a.GDB && truthyStr gdbscript then
    .ok (.gdbDebug elf.path (gdbscript.getD ""))
  else if a.REMOTE then
    match argv[1]?, argv[2]? with
    | some h, some p => .ok (.remoteConn h p)
    | _, _ => .error .indexError
  else
    .ok (.processSpawn elf.path)

/-! ### Helper lemmas -/

/-- A truthy (non-empty) cache together with `force = false` takes the
memoization branch. -/
theorem get_terminal_cached_eq (env : Env) (ctx : Ctx) (s : String)
    (h : ctx.terminal ≠ []) :
    get_terminal env ctx s false = (ctx.terminal, ctx) := by
  unfold get_terminal
  cases hc : ctx.terminal with
  | nil => exact absurd hc h
  | cons a l => simp [hc]

/-- `force = true` or an empty (falsy) cache takes the recomputation
branch. -/
theorem get_terminal_recompute_eq (env : Env) (ctx : Ctx) (s : String)
    (force : Bool) (h : force = true ∨ ctx.terminal = []) :
    get_terminal env ctx s force = (compute_terminal env s, ctx) := by
  unfold get_terminal
  rcases h with h | h <;> simp [h]

/-- When the tmux candidate's availability condition holds, the scan stops
at the first entry. -/
theorem compute_terminal_tmux_eq (env : Env) (s : String)
    (h1 : truthyStr env.tmuxVar = true) (h2 : env.which "tmux" = true) :
    compute_terminal env s =
      ["tmux", "splitw", if s == "horizontal" then "-h" else "-v"] := by
  simp [compute_terminal, TERMINALS, scan_terminals, h1, h2]

/-- The scan of any candidate list whose commands are all non-empty
returns a non-empty command. -/
theorem scan_terminals_ne_nil (l : List (String × List String × Bool))
    (h : ∀ x ∈ l, x.2.1 ≠ []) : scan_terminals l ≠ [] := by
  induction l with
  | nil => simp [scan_terminals]
  | cons hd tl ih =>
    obtain ⟨n, cmd, cond⟩ := hd
    simp only [scan_terminals]
    cases cond with
    | true => simpa using h _ (List.mem_cons_self _ _)
    | false => simpa using ih fun x hx => h x (List.mem_cons_of_mem _ hx)

/-- Every command in the recomputation path is non-empty. -/
theorem compute_terminal_ne_nil (env : Env) (s : String) :
    compute_terminal env s ≠ [] := by
  apply scan_terminals_ne_nil
  intro x hx
  simp only [TERMINALS, List.mem_cons, List.not_mem_nil, or_false] at hx
  rcases hx with h | h | h | h | h | h | h | h | h <;> subst h <;> simp

/-- When the tmux candidate is unavailable, the recomputation does not
depend on the requested orientation. -/
theorem compute_terminal_flag_indep (env : Env) (s s' : String)
    (h : (truthyStr env.tmuxVar && env.which "tmux") = false) :
    compute_terminal env s = compute_terminal env s' := by
  simp [compute_terminal, TERMINALS, scan_terminals, h]

/-- When no candidate executable is discoverable, the scan falls through
to the generic shell. -/
theorem compute_terminal_fallback_eq (env : Env) (s : String)
    (h : ∀ n, env.which n = false) :
    compute_terminal env s = ["bash", "-lc"] := by
  simp [compute_terminal, TERMINALS, scan_terminals, h]

/-! ### Claim theorems -/

/-- C1: `start` selects exactly one of three mutually exclusive launch
modes in precedence order: debug flag plus a (truthy) gdbscript option
attaches the debugger to the handle's path with that script; otherwise
the remote flag connects to `argv[1]`/`argv[2]`; otherwise the binary is
spawned locally at the handle's path. -/
theorem start_mode_precedence (a : PwnArgs) (argv : List String) (e : Elf)
    (gs : Option String) (host port : String) :
    (a.GDB = true → truthyStr gs = true →
      start a argv e gs = .ok (.gdbDebug e.path (gs.getD ""))) ∧
    ((a.GDB && truthyStr gs) = false → a.REMOTE = true →
      argv[1]? = some host → argv[2]? = some port →
      start a argv e gs = .ok (.remoteConn host port)) ∧
    ((a.GDB && truthyStr gs) = false → a.REMOTE = false →
      start a argv e gs = .ok (.processSpawn e.path)) := by
  refine ⟨?_, ?_, ?_⟩
  · intro h1 h2
    simp [start, h1, h2]
  · intro h1 h2 h3 h4
    simp [start, h1, h2, h3, h4]
  · intro h1 h2
    simp [start, h1, h2]

theorem start_mode_precedence_witness :
    start ⟨true, false⟩ [] ⟨"/bin/pw", 0⟩ (some "b main") =
      .ok (.gdbDebug "/bin/pw" "b main") ∧
    start ⟨false, true⟩ ["exploit", "host", "1337"] ⟨"/bin/pw", 0⟩ none =
      .ok (.remoteConn "host" "1337") ∧
    start ⟨false, false⟩ [] ⟨"/bin/pw", 0⟩ none =
      .ok (.processSpawn "/bin/pw") :=
  ⟨(start_mode_precedence ⟨true, false⟩ [] ⟨"/bin/pw", 0⟩ (some "b main")
      "" "").1 rfl (by decide),
   (start_mode_precedence ⟨false, true⟩ ["exploit", "host", "1337"]
      ⟨"/bin/pw", 0⟩ none "host" "1337").2.1 rfl rfl rfl rfl,
   (start_mode_precedence ⟨false, false⟩ [] ⟨"/bin/pw", 0⟩ none
      "" "").2.2 rfl rfl⟩

/-- C2: for every environment, cache state, orientation and force flag,
`get_terminal` returns a non-empty command vector. -/
theorem get_terminal_nonempty (env : Env) (ctx : Ctx) (split : String)
    (force : Bool) : (get_terminal env ctx split force).1 ≠ [] := by
  unfold get_terminal
  split
  · rename_i h
    intro hc
    rw [show ((ctx.terminal, ctx).1 : List String) = ctx.terminal from rfl] at hc
    rw [hc] at h
    simp at h
  · exact compute_terminal_ne_nil env split

/-- C3 counterexample: with the remote flag set and a raw argument list of
length 1, `start` raises an index error locally, before any delegation to
the external connect primitive — refuting "start generates no errors
locally" as universally stated. -/
theorem start_local_indexerror_cex :
    start ⟨false, true⟩ ["exploit"] ⟨"/bin/pw", 0⟩ none =
      .error .indexError := rfl

/-- C3 amended: `start` generates an error locally exactly when the remote
branch is taken (debug branch not selected, remote flag set) and the raw
argument list has fewer than three entries, where indexing it fails before
delegation; on every other input it delegates to one of the three external
primitives, whose failures it propagates unchanged. -/
theorem start_local_error_characterization (a : PwnArgs)
    (argv : List String) (e : Elf) (gs : Option String) :
    start a argv e gs = .error .indexError ↔
      ((a.GDB && truthyStr gs) = false ∧ a.REMOTE = true ∧
        argv.length < 3) := by
  cases hb : (a.GDB && truthyStr gs) with
  | true => simp [start, hb]
  | false =>
    cases hr : a.REMOTE with
    | false => simp [start, hb, hr]
    | true =>
      match argv with
      | [] => simp [start, hb, hr]
      | [x] => simp [start, hb, hr]
      | [x, y] => simp [start, hb, hr]
      | x :: y :: z :: rest =>
        simp only [start, hb, Bool.false_eq_true, if_false, hr, if_true,
          List.getElem?_cons_succ, List.getElem?_cons_zero, List.length_cons]
        constructor
        · intro h
          exact absurd h (by simp)
        · intro h
          omega

/-- C4: with a truthy cached terminal command and `force = false`, two
successive calls (under possibly different availability environments)
both return the cached value unchanged; with `force = true` the
priority-list recomputation is performed instead. -/
theorem get_terminal_memoization (env env' : Env) (ctx : Ctx)
    (s s' : String) (h : ctx.terminal ≠ []) :
    (get_terminal env ctx s false).1 = ctx.terminal ∧
    (get_terminal env' (get_terminal env ctx s false).2 s' false).1 =
      ctx.terminal ∧
    (get_terminal env ctx s true).1 = compute_terminal env s := by
  rw [get_terminal_cached_eq env ctx s h]
  refine ⟨rfl, ?_, ?_⟩
  · show (get_terminal env' ctx s' false).1 = ctx.terminal
    rw [get_terminal_cached_eq env' ctx s' h]
  · rw [get_terminal_recompute_eq env ctx s true (Or.inl rfl)]

theorem get_terminal_memoization_witness :
    (get_terminal ⟨some "s0", fun n => n == "tmux"⟩ ⟨["xterm", "-e"], none⟩
        "horizontal" false).1 = ["xterm", "-e"] ∧
    (get_terminal ⟨none, fun _ => false⟩
        (get_terminal ⟨some "s0", fun n => n == "tmux"⟩
          ⟨["xterm", "-e"], none⟩ "horizontal" false).2
        "vertical" false).1 = ["xterm", "-e"] ∧
    (get_terminal ⟨some "s0", fun n => n == "tmux"⟩ ⟨["xterm", "-e"], none⟩
        "horizontal" true).1 =
      compute_terminal ⟨some "s0", fun n => n == "tmux"⟩ "horizontal" :=
  get_terminal_memoization ⟨some "s0", fun n => n == "tmux"⟩
    ⟨none, fun _ => false⟩ ⟨["xterm", "-e"], none⟩ "horizontal" "vertical"
    (by simp)

/-- C5: when recomputation occurs (`force` set or no cached terminal), the
`TMUX` variable is set to a non-empty value and the tmux executable is on
the search path, `get_terminal` returns the tmux split command with flag
`-h` for a horizontal and `-v` for a vertical orientation. -/
theorem get_terminal_tmux_split (env : Env) (ctx : Ctx) (force : Bool)
    (hrec : force = true ∨ ctx.terminal = [])
    (htmux : truthyStr env.tmuxVar = true)
    (hwhich : env.which "tmux" = true) :
    (get_terminal env ctx "horizontal" force).1 =
      ["tmux", "splitw", "-h"] ∧
    (get_terminal env ctx "vertical" force).1 =
      ["tmux", "splitw", "-v"] := by
  rw [get_terminal_recompute_eq env ctx "horizontal" force hrec,
      get_terminal_recompute_eq env ctx "vertical" force hrec,
      compute_terminal_tmux_eq env "horizontal" htmux hwhich,
      compute_terminal_tmux_eq env "vertical" htmux hwhich]
  exact ⟨by simp, by simp⟩

theorem get_terminal_tmux_split_witness :
    (truthyStr (some "sess") = true) ∧
    (get_terminal ⟨some "sess", fun n => n == "tmux"⟩ ⟨[], none⟩
        "horizontal" false).1 = ["tmux", "splitw", "-h"] ∧
    (get_terminal ⟨some "sess", fun n => n == "tmux"⟩ ⟨[], none⟩
        "vertical" false).1 = ["tmux", "splitw", "-v"] :=
  ⟨by decide,
   (get_terminal_tmux_split ⟨some "sess", fun n => n == "tmux"⟩ ⟨[], none⟩
      false (Or.inr rfl) (by decide) (by decide)).1,
   (get_terminal_tmux_split ⟨some "sess", fun n => n == "tmux"⟩ ⟨[], none⟩
      false (Or.inr rfl) (by decide) (by decide)).2⟩

/-- C6: when recomputation occurs, no multiplexer session is active and
none of the known terminal executables is discoverable on the search
path, `get_terminal` returns the generic shell fallback `["bash", "-lc"]`. -/
theorem get_terminal_shell_fallback (env : Env) (ctx : Ctx) (split : String)
    (force : Bool) (hrec : force = true ∨ ctx.terminal = [])
    (hmux : truthyStr env.tmuxVar = false)
    (hnone : ∀ n ∈ ["tmux", "kitty", "wezterm", "alacritty", "konsole",
        "gnome-terminal", "xfce4-terminal", "terminator", "xterm"],
        env.which n = false) :
    (get_terminal env ctx split force).1 = ["bash", "-lc"] := by
  rw [get_terminal_recompute_eq env ctx split force hrec]
  have t1 := hnone "tmux" (by simp)
  have t2 := hnone "kitty" (by simp)
  have t3 := hnone "wezterm" (by simp)
  have t4 := hnone "alacritty" (by simp)
  have t5 := hnone "konsole" (by simp)
  have t6 := hnone "gnome-terminal" (by simp)
  have t7 := hnone "xfce4-terminal" (by simp)
  have t8 := hnone "terminator" (by simp)
  have t9 := hnone "xterm" (by simp)
  simp [compute_terminal, TERMINALS, scan_terminals, hmux,
    t1, t2, t3, t4, t5, t6, t7, t8, t9]

theorem get_terminal_shell_fallback_witness :
    (get_terminal ⟨none, fun _ => false⟩ ⟨[], none⟩ "horizontal" true).1 =
      ["bash", "-lc"] :=
  get_terminal_shell_fallback ⟨none, fun _ => false⟩ ⟨[], none⟩
    "horizontal" true (Or.inl rfl) rfl (fun _ _ => rfl)

/-- C7: in the static priority list, only the first (tmux) entry's command
carries the orientation split flag — every other candidate's command is a
fixed vector independent of the flag — and whenever the first candidate is
unavailable, the result of `get_terminal` is identical for any two
orientation values. -/
theorem terminals_orientation_asymmetry (env : Env) (f g : String) :
    ((TERMINALS env f).map (fun t => t.2.1) =
      [["tmux", "splitw", f], ["kitty", "-e"], ["wezterm", "start", "--"],
       ["alacritty", "-e"], ["konsole", "-e"], ["gnome-terminal", "--"],
       ["xfce4-terminal", "-e"], ["terminator", "-x"], ["xterm", "-e"]]) ∧
    ((TERMINALS env f).tail.map (fun t => t.2.1) =
      (TERMINALS env g).tail.map (fun t => t.2.1)) ∧
    ((truthyStr env.tmuxVar && env.which "tmux") = false →
      ∀ (ctx : Ctx) (force : Bool) (s s' : String),
        get_terminal env ctx s force = get_terminal env ctx s' force) := by
  refine ⟨by simp [TERMINALS], by simp [TERMINALS], ?_⟩
  intro h ctx force s s'
  unfold get_terminal
  rw [compute_terminal_flag_indep env s s' h]

theorem terminals_orientation_asymmetry_witness :
    get_terminal ⟨none, fun n => n == "kitty"⟩ ⟨[], none⟩
        "horizontal" false =
      get_terminal ⟨none, fun n => n == "kitty"⟩ ⟨[], none⟩
        "vertical" false :=
  (terminals_orientation_asymmetry ⟨none, fun n => n == "kitty"⟩
    "-h" "-v").2.2 rfl ⟨[], none⟩ false "horizontal" "vertical"

/-- C8: the binary-loading entry point delegates to the external loader
with path and extra arguments passed through; on success it records the
returned handle as the ambient current binary and returns that same
handle, and on failure it propagates the library error unchanged. -/
theorem ELF_load_record_return {ε : Type}
    (load : String → List String → Except ε Elf) (ctx : Ctx)
    (path : String) (extra : List String) :
    (∀ e, load path extra = .ok e →
      ELF load ctx path extra = .ok (e, { ctx with binary := some e })) ∧
    (∀ err, load path extra = .error err →
      ELF load ctx path extra = .error err) := by
  constructor
  · intro e he
    simp [ELF, he]
  · intro err he
    simp [ELF, he]

theorem ELF_load_record_return_witness :
    ELF (fun p _ => (Except.ok ⟨p, 5⟩ : Except Unit Elf))
        ⟨["bash", "-lc"], none⟩ "/bin/pw" [] =
      Except.ok (⟨"/bin/pw", 5⟩, ⟨["bash", "-lc"], some ⟨"/bin/pw", 5⟩⟩) ∧
    ELF (fun _ _ => (Except.error () : Except Unit Elf))
        ⟨["bash", "-lc"], none⟩ "/bin/pw" [] =
      Except.error () :=
  ⟨(ELF_load_record_return (fun p _ => (Except.ok ⟨p, 5⟩ : Except Unit Elf))
      ⟨["bash", "-lc"], none⟩ "/bin/pw" []).1 ⟨"/bin/pw", 5⟩ rfl,
   (ELF_load_record_return (fun _ _ => (Except.error () : Except Unit Elf))
      ⟨["bash", "-lc"], none⟩ "/bin/pw" []).2 () rfl⟩

/-- C9: `get_terminal` accepts any orientation string without validation:
under recomputation with the tmux candidate available, every orientation
value different from exactly "horizontal" yields the `-v` split flag. -/
theorem get_terminal_nonhorizontal_vertical (env : Env) (ctx : Ctx)
    (split : String) (force : Bool)
    (hrec : force = true ∨ ctx.terminal = [])
    (hs : split ≠ "horizontal")
    (htmux : truthyStr env.tmuxVar = true)
    (hwhich : env.which "tmux" = true) :
    (get_terminal env ctx split force).1 = ["tmux", "splitw", "-v"] := by
  rw [get_terminal_recompute_eq env ctx split force hrec,
      compute_terminal_tmux_eq env split htmux hwhich]
  simp [hs]

theorem get_terminal_nonhorizontal_vertical_witness :
    ("diagonal" ≠ "horizontal") ∧
    (get_terminal ⟨some "sess", fun n => n == "tmux"⟩ ⟨[], none⟩
        "diagonal" false).1 = ["tmux", "splitw", "-v"] :=
  ⟨by decide,
   get_terminal_nonhorizontal_vertical ⟨some "sess", fun n => n == "tmux"⟩
     ⟨[], none⟩ "diagonal" false (Or.inr rfl) (by decide) (by decide)
     (by decide)⟩

/-- C10: `get_terminal` never writes the ambient cache: the context it
returns is the one it was given; a forced call returns the freshly
recomputed command without storing it; and a subsequent unforced call
still returns the originally cached (truthy) value. -/
theorem get_terminal_no_cache_write (env env' : Env) (ctx : Ctx)
    (s s' : String) (force : Bool) :
    ((get_terminal env ctx s force).2 = ctx) ∧
    ((get_terminal env ctx s true).1 = compute_terminal env s) ∧
    (ctx.terminal ≠ [] →
      (get_terminal env' (get_terminal env ctx s true).2 s' false).1 =
        ctx.terminal) := by
  refine ⟨?_, ?_, ?_⟩
  · unfold get_terminal
    split <;> rfl
  · rw [get_terminal_recompute_eq env ctx s true (Or.inl rfl)]
  · intro h
    rw [get_terminal_recompute_eq env ctx s true (Or.inl rfl)]
    show (get_terminal env' ctx s' false).1 = ctx.terminal
    rw [get_terminal_cached_eq env' ctx s' h]

theorem get_terminal_no_cache_write_witness :
    ((get_terminal ⟨none, fun _ => false⟩ ⟨["kitty", "-e"], none⟩
        "vertical" true).2 = ⟨["kitty", "-e"], none⟩) ∧
    ((get_terminal ⟨none, fun _ => false⟩ ⟨["kitty", "-e"], none⟩
        "vertical" true).1 = compute_terminal ⟨none, fun _ => false⟩
        "vertical") ∧
    ((get_terminal ⟨some "x", fun _ => true⟩
        (get_terminal ⟨none, fun _ => false⟩ ⟨["kitty", "-e"], none⟩
          "vertical" true).2 "horizontal" false).1 = ["kitty", "-e"]) := by
  have h := get_terminal_no_cache_write ⟨none, fun _ => false⟩
    ⟨some "x", fun _ => true⟩ ⟨["kitty", "-e"], none⟩ "vertical"
    "horizontal" true
  exact ⟨h.1, h.2.1, h.2.2 (by simp)⟩
